import Mathlib

/-!
Shallow embedding of the Hustlers e-learning platform (Python/Flask) and
proofs about its specification claims.

Modules embedded:
- modules/quiz_fetcher.py      (QuizFetcher)
- modules/ai_generator.py      (AIGenerator)
- modules/study_material_fetcher.py (StudyMaterialFetcher)
- modules/progress_tracker.py  (ProgressTracker)
- modules/export_manager.py    (ExportManager)
- app.py                       (register route, role resolution)

Python dictionaries flowing through the AI-reply parsing code are modeled by
a small JSON value type; Python `dict.get`, truthiness and `len` are embedded
explicitly.  External effects (HTTP fetches, the Gemini call, `random.shuffle`,
the database session, file writes) are modeled as explicit inputs: the fetch
outcome is an `Option` argument, the AI reply is a `String` argument, the
shuffle result is a list constrained to be a permutation, the database is a
list of rows passed in and returned, and a file write is the document value
that would be rendered into the file.
-/

/-!
Kernel-computable embeddings of the Python string operations used by the
code (the corresponding core `String` functions do not reduce inside the
kernel, so concrete witnesses could not be checked with them).
-/

/-- Python `str.strip` whitespace test, restricted to the whitespace
characters that actually occur in the embedded data. -/
def pyIsSpace (c : Char) : Bool := c = ' ' || c = '\n' || c = '\t' || c = '\r'

/-- Python `str.strip()`: remove leading and trailing whitespace. -/
def pyStrip (s : String) : String :=
  String.mk (((s.data.dropWhile pyIsSpace).reverse.dropWhile pyIsSpace).reverse)

/-- ASCII lower-casing of one character (Python `str.lower` on the ASCII
range, which covers all keywords the code compares against). -/
def pyLowerChar (c : Char) : Char :=
  if 65 ≤ c.toNat ∧ c.toNat ≤ 90 then Char.ofNat (c.toNat + 32) else c

/-- Python `str.lower()` (ASCII range). -/
def pyLower (s : String) : String := String.mk (s.data.map pyLowerChar)

/-- Fuel-driven worker for `pySplit`: scans the character list left to right,
splitting at each non-overlapping occurrence of `sep`.  The fuel starts above
the list length, so it never runs out on the initial call. -/
def splitOnAux (sep : List Char) : Nat → List Char → List Char → List (List Char)
  | 0, l, cur => [cur.reverse ++ l]
  | _ + 1, [], cur => [cur.reverse]
  | fuel + 1, c :: rest, cur =>
    if sep.isPrefixOf (c :: rest) then
      cur.reverse :: splitOnAux sep fuel (List.drop sep.length (c :: rest)) []
    else
      splitOnAux sep fuel rest (c :: cur)

/-- Python `s.split(sep)` for a non-empty separator. -/
def pySplit (s : String) (sep : String) : List String :=
  (splitOnAux sep.data (s.data.length + 1) s.data []).map String.mk

/-- Fuel-driven worker for `pyReplace`. -/
def replaceAux (pat repl : List Char) : Nat → List Char → List Char
  | 0, l => l
  | _ + 1, [] => []
  | fuel + 1, c :: rest =>
    if pat.isPrefixOf (c :: rest) then
      repl ++ replaceAux pat repl fuel (List.drop pat.length (c :: rest))
    else
      c :: replaceAux pat repl fuel rest

/-- Python `s.replace(pat, repl)`: replace every non-overlapping occurrence. -/
def pyReplace (s pat repl : String) : String :=
  String.mk (replaceAux pat.data repl.data (s.data.length + 1) s.data)

/-- Python `s.startswith(pat)`. -/
def pyStartsWith (s pat : String) : Bool := pat.data.isPrefixOf s.data

/-- Worker for `containsSub`. -/
def containsSubGo (p : List Char) : List Char → Bool
  | [] => p.isEmpty
  | c :: rest => p.isPrefixOf (c :: rest) || containsSubGo p rest

/-- Python `pat in s` substring test. -/
def containsSub (pat s : String) : Bool := containsSubGo pat.data s.data

/-- Python `sep.join(xs)`. -/
def pyJoin (sep : String) (xs : List String) : String :=
  String.mk (List.intercalate sep.data (xs.map String.data))

/-- JSON values as produced by Python `json.loads`.  Numeric payloads are
modeled as integers; none of the verified claims depends on float values. -/
inductive Json where
  | null : Json
  | bool (b : Bool) : Json
  | num (n : Int) : Json
  | str (s : String) : Json
  | arr (elems : List Json) : Json
  | obj (fields : List (String × Json)) : Json

/-- Python truthiness of a JSON value (`bool(x)`): `None`, `False`, `0`, `""`,
`[]` and `\x7b\x7d` are falsy, everything else truthy. -/
def Json.truthy : Json → Bool
  | .null => false
  | .bool b => b
  | .num n => n != 0
  | .str s => s != ""
  | .arr xs => !xs.isEmpty
  | .obj fs => !fs.isEmpty

/-- Python `len(x)` on a JSON value: defined for strings, arrays and objects,
raises `TypeError` (modeled as `none`) otherwise. -/
def Json.pyLen : Json → Option Nat
  | .str s => some s.length
  | .arr xs => some xs.length
  | .obj fs => some fs.length
  | _ => none

/-- Python `d.get(k)` on a JSON object: `some` the value when the key is
present, `none` otherwise (and `none` on non-objects, where the code under
verification never calls it). -/
def Json.getKey : Json → String → Option Json
  | .obj fs, k => fs.lookup k
  | _, _ => none

/-- Whether a JSON value is an object (Python `isinstance(x, dict)`). -/
def Json.isObj : Json → Bool
  | .obj _ => true
  | _ => false

namespace QuizFetcher

/-- One raw question as returned by the Open Trivia Database API
(fields used by `_format_opentdb_question`). -/
structure OpenTdbQuestion where
  question : String
  correct_answer : String
  incorrect_answers : List String
deriving Repr

/-- A question in the standard format produced by
`QuizFetcher._format_opentdb_question`. -/
structure FormattedQuestion where
  question : String
  options : List String
  correct : Nat
  explanation : String
deriving Repr, DecidableEq

/-- The combined answer list built by `_format_opentdb_question` before the
shuffle: the HTML-decoded incorrect answers followed by the decoded correct
answer (`all_answers.append(correct_answer)`).  `unescape` is Python
`html.unescape`, abstracted as a string function since its table of entities
is irrelevant to the claims. -/
def opentdb_all_answers (unescape : String → String) (q : OpenTdbQuestion) : List String :=
  q.incorrect_answers.map unescape ++ [unescape q.correct_answer]

/-- Embedding of `QuizFetcher._format_opentdb_question` (quiz_fetcher.py lines
75 to 101).  `random.shuffle(all_answers)` permutes the list in place; the
post-shuffle list is passed in as `shuffled` and theorems constrain it to be a
permutation of `opentdb_all_answers`.  `all_answers.index(correct_answer)` is
`List.indexOf`; Python `.index` raises on a missing element, while
`List.indexOf` returns the length, but under the permutation constraint the
element is always present. -/
def format_opentdb_question (unescape : String → String) (q : OpenTdbQuestion)
    (shuffled : List String) : FormattedQuestion :=
  let correct_answer := unescape q.correct_answer
  { question := unescape q.question
    options := shuffled
    correct := shuffled.indexOf correct_answer
    explanation := "The correct answer is " ++ correct_answer ++ "." }

end QuizFetcher

/-- C2: for every external trivia question and every shuffle outcome, the
`correct` index produced by `QuizFetcher._format_opentdb_question` is within
the bounds of the `options` list, and the option at that index equals the
HTML-decoded correct-answer text. -/
theorem C2_format_opentdb_correct_index (unescape : String → String)
    (q : QuizFetcher.OpenTdbQuestion) (shuffled : List String)
    (hperm : shuffled.Perm (QuizFetcher.opentdb_all_answers unescape q)) :
    (QuizFetcher.format_opentdb_question unescape q shuffled).correct <
      (QuizFetcher.format_opentdb_question unescape q shuffled).options.length ∧
    (QuizFetcher.format_opentdb_question unescape q shuffled).options[
      (QuizFetcher.format_opentdb_question unescape q shuffled).correct]? =
      some (unescape q.correct_answer) := by
  have hmem : unescape q.correct_answer ∈ shuffled := by
    refine hperm.mem_iff.mpr ?_
    unfold QuizFetcher.opentdb_all_answers
    exact List.mem_append_right _ (List.mem_singleton.mpr rfl)
  constructor
  · exact List.indexOf_lt_length.mpr hmem
  · exact List.getElem?_indexOf hmem

/-- Witness for C2 at a concrete input: question with correct answer "B" and
incorrect answers ["A", "C"], shuffled to ["B", "C", "A"]. -/
theorem C2_format_opentdb_correct_index_witness :
    (QuizFetcher.format_opentdb_question id
      ⟨"Q?", "B", ["A", "C"]⟩ ["B", "C", "A"]).correct <
      (QuizFetcher.format_opentdb_question id
        ⟨"Q?", "B", ["A", "C"]⟩ ["B", "C", "A"]).options.length ∧
    (QuizFetcher.format_opentdb_question id
      ⟨"Q?", "B", ["A", "C"]⟩ ["B", "C", "A"]).options[
      (QuizFetcher.format_opentdb_question id
        ⟨"Q?", "B", ["A", "C"]⟩ ["B", "C", "A"]).correct]? = some (id "B") :=
  C2_format_opentdb_correct_index id ⟨"Q?", "B", ["A", "C"]⟩ ["B", "C", "A"] (by decide)

namespace AIGenerator

/-- The mock quiz reply produced by `AIGenerator._get_mock_response`
(ai_generator.py lines 64 to 74), as the `json.dumps` output string. -/
def mock_quiz_reply : String :=
  "\x7b\"questions\": [\x7b\"question\": \"What is the main topic?\", \"options\": [\"Option A\", \"Option B\", \"Option C\", \"Option D\"], \"correct\": 0, \"explanation\": \"This is a sample explanation.\"\x7d]\x7d"

/-- The mock flashcard reply produced by `AIGenerator._get_mock_response`
(ai_generator.py lines 75 to 80). -/
def mock_flashcards_reply : String :=
  "\x7b\"cards\": [\x7b\"front\": \"Question?\", \"back\": \"Answer\"\x7d]\x7d"

/-- Embedding of `AIGenerator._get_mock_response` (ai_generator.py lines 61
to 82): keyword dispatch over the lower-cased prompt. -/
def get_mock_response (prompt : String) : String :=
  if containsSub "quiz" (pyLower prompt) then mock_quiz_reply
  else if containsSub "flashcard" (pyLower prompt) then mock_flashcards_reply
  else "This is a sample generated content. Please configure Gemini API key for full functionality."

/-- Embedding of `AIGenerator._call_ai` (ai_generator.py lines 30 to 59).
`api_available` is the constructor flag (true when a Gemini key is set);
`apiReply` models the Gemini call, `none` standing for a raised exception, in
which case the mock response is substituted.  The `max_tokens` argument has no
observable effect in the embedding and is dropped. -/
def call_ai (api_available : Bool) (apiReply : String → Option String)
    (prompt : String) : String :=
  if api_available then
    match apiReply ("You are an expert educational content creator. " ++ prompt) with
    | some text => text
    | none => get_mock_response prompt
  else get_mock_response prompt

/-- The four prompt templates of `AIGenerator.generate` (ai_generator.py
lines 90 to 95). -/
def generate_prompts (topic difficulty : String) : List (String × String) :=
  [("notes", "Create comprehensive study notes on \x27" ++ topic ++ "\x27 suitable for " ++ difficulty ++ " level students. Include key concepts, definitions, examples, and important points."),
   ("summary", "Create a concise summary of \x27" ++ topic ++ "\x27 for " ++ difficulty ++ " level. Include main points and key takeaways."),
   ("diagram_description", "Describe a visual diagram or concept map for \x27" ++ topic ++ "\x27 suitable for " ++ difficulty ++ " level. Include what elements should be shown and how they connect."),
   ("video_script", "Create an engaging video script for teaching \x27" ++ topic ++ "\x27 to " ++ difficulty ++ " level students. Include introduction, main content, examples, and conclusion.")]

/-- Embedding of `AIGenerator.generate` (ai_generator.py lines 84 to 135).
The returned Python dictionary is modeled as an association list from keys to
string values (every value the function stores is a string). -/
def generate (api_available : Bool) (apiReply : String → Option String)
    (topic content_type difficulty language : String) : List (String × String) :=
  let prompts := generate_prompts topic difficulty
  let prompt0 := (prompts.lookup content_type).getD
    ((prompts.lookup "notes").getD "")
  let prompt := if language ≠ "en" then
      prompt0 ++ " Translate the content to " ++ language ++ "."
    else prompt0
  let result := call_ai api_available apiReply prompt
  if content_type = "notes" then
    [("type", "notes"), ("topic", topic), ("content", result), ("difficulty", difficulty)]
  else if content_type = "summary" then
    [("type", "summary"), ("topic", topic), ("content", result), ("difficulty", difficulty)]
  else if content_type = "diagram_description" then
    [("type", "diagram"), ("topic", topic), ("description", result), ("difficulty", difficulty)]
  else if content_type = "video_script" then
    [("type", "video_script"), ("topic", topic), ("script", result), ("difficulty", difficulty)]
  else
    [("type", content_type), ("content", result)]

end AIGenerator

/-- C4: for every topic, difficulty, language, API availability (including
mock mode) and every Gemini outcome, `AIGenerator.generate` on the four
documented content types returns a dictionary carrying the expected keys:
`type` and `topic` always, `content` for notes and summary, `description` for
diagram_description, and `script` for video_script. -/
theorem C4_generate_expected_keys (api_available : Bool)
    (apiReply : String → Option String) (topic difficulty language : String)
    (content_type : String)
    (h : content_type = "notes" ∨ content_type = "summary" ∨
         content_type = "diagram_description" ∨ content_type = "video_script") :
    ((AIGenerator.generate api_available apiReply topic content_type difficulty
        language).lookup "topic" = some topic) ∧
    ((AIGenerator.generate api_available apiReply topic content_type difficulty
        language).lookup "type").isSome = true ∧
    ((content_type = "notes" ∨ content_type = "summary") →
      ((AIGenerator.generate api_available apiReply topic content_type difficulty
          language).lookup "content").isSome = true) ∧
    (content_type = "diagram_description" →
      ((AIGenerator.generate api_available apiReply topic content_type difficulty
          language).lookup "description").isSome = true) ∧
    (content_type = "video_script" →
      ((AIGenerator.generate api_available apiReply topic content_type difficulty
          language).lookup "script").isSome = true) := by
  rcases h with rfl | rfl | rfl | rfl
  · exact ⟨rfl, rfl, fun _ => rfl, fun hc => absurd hc (by decide), fun hc => absurd hc (by decide)⟩
  · exact ⟨rfl, rfl, fun _ => rfl, fun hc => absurd hc (by decide), fun hc => absurd hc (by decide)⟩
  · exact ⟨rfl, rfl,
      fun hc => by rcases hc with hc | hc <;> exact absurd hc (by decide),
      fun _ => rfl, fun hc => absurd hc (by decide)⟩
  · exact ⟨rfl, rfl,
      fun hc => by rcases hc with hc | hc <;> exact absurd hc (by decide),
      fun hc => absurd hc (by decide), fun _ => rfl⟩

/-- Witness for C4 at a concrete input: mock mode (no API key), topic
"Algebra", content type "notes". -/
theorem C4_generate_expected_keys_witness :
    ((AIGenerator.generate false (fun _ => none) "Algebra" "notes" "medium"
        "en").lookup "topic" = some "Algebra") ∧
    ((AIGenerator.generate false (fun _ => none) "Algebra" "notes" "medium"
        "en").lookup "type").isSome = true ∧
    ((AIGenerator.generate false (fun _ => none) "Algebra" "notes" "medium"
        "en").lookup "content").isSome = true := by
  have h := C4_generate_expected_keys false (fun _ => none) "Algebra" "medium"
    "en" "notes" (Or.inl rfl)
  exact ⟨h.1, h.2.1, h.2.2.1 (Or.inl rfl)⟩

namespace AIGenerator

/-- The quiz prompt built by `AIGenerator.generate_quiz` (ai_generator.py
lines 144 to 176), an f-string over topic, question count and difficulty. -/
def quiz_prompt (topic : String) (num_questions : Nat) (difficulty : String) : String :=
  pyJoin "\n" [
    "You are creating a quiz about the specific topic: \"" ++ topic ++ "\"",
    "",
    "        CRITICAL REQUIREMENT: Every single question MUST be directly and specifically about \"" ++ topic ++ "\". ",
    "        Do NOT create general knowledge questions. Every question must relate to \"" ++ topic ++ "\".",
    "",
    "        Create exactly " ++ toString num_questions ++ " multiple-choice questions that are:",
    "        1. Directly about the topic: \"" ++ topic ++ "\"",
    "        2. Testing knowledge and understanding of \"" ++ topic ++ "\" specifically",
    "        3. Covering different aspects, concepts, and details of \"" ++ topic ++ "\"",
    "        4. Appropriate for " ++ difficulty ++ " difficulty level students",
    "        5. Each with exactly 4 answer options (A, B, C, D)",
    "        6. Including clear explanations that reference \"" ++ topic ++ "\"",
    "",
    "        Question Requirements:",
    "        - Each question must mention or clearly relate to \"" ++ topic ++ "\"",
    "        - Questions should explore: definitions, concepts, processes, facts, applications, or examples related to \"" ++ topic ++ "\"",
    "        - Options should be plausible but only one should be correct",
    "        - Explanations must explain why the answer is correct in the context of \"" ++ topic ++ "\"",
    "",
    "        Format as JSON with this exact structure:",
    "        \x7b",
    "            \"questions\": [",
    "                \x7b",
    "                    \"question\": \"A specific question about " ++ topic ++ "\",",
    "                    \"options\": [\"Option A related to " ++ topic ++ "\", \"Option B related to " ++ topic ++ "\", \"Option C related to " ++ topic ++ "\", \"Option D related to " ++ topic ++ "\"],",
    "                    \"correct\": 0,",
    "                    \"explanation\": \"Explanation that clearly connects the answer to " ++ topic ++ "\"",
    "                \x7d",
    "            ]",
    "        \x7d",
    "        ",
    "        Remember: ALL questions must be about \"" ++ topic ++ "\" - no generic questions allowed.",
    "        Return ONLY valid JSON, no additional text before or after."]

/-- The markdown-fence cleanup at the top of the `try` block of
`AIGenerator.generate_quiz` (ai_generator.py lines 183 to 187). -/
def clean_reply (result : String) : String :=
  let cleaned := pyStrip result
  if pyStartsWith cleaned "```" then
    let lines := pySplit cleaned "\n"
    if pyStrip (lines.getLastD "") = "```" then
      pyJoin "\n" ((lines.drop 1).dropLast)
    else
      pyJoin "\n" (lines.drop 1)
  else cleaned

/-- The sample question used by the parse-failure fallback of
`AIGenerator.generate_quiz` (ai_generator.py lines 207 to 221). -/
def quiz_placeholder_question (topic : String) : Json :=
  Json.obj [
    ("question", Json.str ("What is a key concept related to " ++ topic ++ "?")),
    ("options", Json.arr [
      Json.str ("Option A related to " ++ topic),
      Json.str ("Option B related to " ++ topic),
      Json.str ("Option C related to " ++ topic),
      Json.str ("Option D related to " ++ topic)]),
    ("correct", Json.num 0),
    ("explanation", Json.str ("This is a sample question about " ++ topic ++ ". Please check your API configuration for full functionality."))]

/-- The full parse-failure fallback dictionary of `AIGenerator.generate_quiz`:
a `questions` array holding exactly the one sample question. -/
def quiz_placeholder (topic : String) : Json :=
  Json.obj [("questions", Json.arr [quiz_placeholder_question topic])]

/-- Embedding of `AIGenerator.generate_quiz` (ai_generator.py lines 137 to
221).  `jsonParse` models Python `json.loads`, with `none` standing for
`json.JSONDecodeError`.  The `except` clause catches only `JSONDecodeError`
and `ValueError`; the `len()` call on a truthy but unsized `questions` value
raises an uncaught `TypeError`, modeled as `Except.error`.  All caught
failures return the placeholder dictionary. -/
def generate_quiz (jsonParse : String → Option Json) (api_available : Bool)
    (apiReply : String → Option String) (topic : String) (num_questions : Nat)
    (difficulty : String) : Except String Json :=
  let result := call_ai api_available apiReply (quiz_prompt topic num_questions difficulty)
  match jsonParse (clean_reply result) with
  | none => .ok (quiz_placeholder topic)
  | some quiz_data =>
    match quiz_data with
    | Json.obj fields =>
      match fields.lookup "questions" with
      | none => .ok (quiz_placeholder topic)
      | some qv =>
        if qv.truthy then
          match qv.pyLen with
          | none => .error "TypeError: object has no len()"
          | some l => if l = 0 then .ok (quiz_placeholder topic) else .ok (Json.obj fields)
        else .ok (quiz_placeholder topic)
    | _ => .ok (quiz_placeholder topic)

/-- The flashcard prompt of `AIGenerator.generate_flashcards`
(ai_generator.py lines 225 to 231). -/
def flashcards_prompt (topic : String) (num_cards : Nat) : String :=
  pyJoin "\n" [
    "Create " ++ toString num_cards ++ " flashcards on \x27" ++ topic ++ "\x27.",
    "        Format as JSON:",
    "        \x7b",
    "            \"cards\": [",
    "                \x7b\"front\": \"Question or term\", \"back\": \"Answer or definition\"\x7d",
    "            ]",
    "        \x7d"]

/-- The parse-failure fallback dictionary of `AIGenerator.generate_flashcards`
(ai_generator.py lines 238 to 242): a `cards` array holding exactly one
sample card. -/
def flashcards_placeholder (topic : String) : Json :=
  Json.obj [("cards", Json.arr [Json.obj [
    ("front", Json.str ("What is " ++ topic ++ "?")),
    ("back", Json.str ("Definition of " ++ topic))]])]

/-- Embedding of `AIGenerator.generate_flashcards` (ai_generator.py lines 223
to 242): a bare `json.loads(result)` under `try`, whose bare `except` returns
the placeholder; there is no cleanup and no validation of the parsed value. -/
def generate_flashcards (jsonParse : String → Option Json) (api_available : Bool)
    (apiReply : String → Option String) (topic : String) (num_cards : Nat) : Json :=
  let result := call_ai api_available apiReply (flashcards_prompt topic num_cards)
  match jsonParse result with
  | some j => j
  | none => flashcards_placeholder topic

end AIGenerator

/-- C5 (amended): `generate_quiz` substitutes the single-item placeholder on
malformed JSON, on a parse result that is not an object, on a missing
`questions` key and on a falsy `questions` value, and returns the parsed
object when `questions` is a nonempty array; the placeholder carries exactly
one question.  `generate_flashcards` substitutes its single-item placeholder
exactly when `json.loads` fails on the raw reply, and otherwise returns the
parsed value unchanged, even when the `cards` key is missing. -/
theorem C5_parse_failure_fallbacks (jsonParse : String → Option Json)
    (api_available : Bool) (apiReply : String → Option String)
    (topic difficulty : String) (num_questions num_cards : Nat)
    (fields : List (String × Json)) (qv j : Json) (qs : List Json) :
    (jsonParse (AIGenerator.clean_reply (AIGenerator.call_ai api_available apiReply
        (AIGenerator.quiz_prompt topic num_questions difficulty))) = none →
      AIGenerator.generate_quiz jsonParse api_available apiReply topic num_questions difficulty =
        .ok (AIGenerator.quiz_placeholder topic)) ∧
    (jsonParse (AIGenerator.clean_reply (AIGenerator.call_ai api_available apiReply
        (AIGenerator.quiz_prompt topic num_questions difficulty))) = some j →
      j.isObj = false →
      AIGenerator.generate_quiz jsonParse api_available apiReply topic num_questions difficulty =
        .ok (AIGenerator.quiz_placeholder topic)) ∧
    (jsonParse (AIGenerator.clean_reply (AIGenerator.call_ai api_available apiReply
        (AIGenerator.quiz_prompt topic num_questions difficulty))) = some (Json.obj fields) →
      fields.lookup "questions" = none →
      AIGenerator.generate_quiz jsonParse api_available apiReply topic num_questions difficulty =
        .ok (AIGenerator.quiz_placeholder topic)) ∧
    (jsonParse (AIGenerator.clean_reply (AIGenerator.call_ai api_available apiReply
        (AIGenerator.quiz_prompt topic num_questions difficulty))) = some (Json.obj fields) →
      fields.lookup "questions" = some qv → qv.truthy = false →
      AIGenerator.generate_quiz jsonParse api_available apiReply topic num_questions difficulty =
        .ok (AIGenerator.quiz_placeholder topic)) ∧
    (jsonParse (AIGenerator.clean_reply (AIGenerator.call_ai api_available apiReply
        (AIGenerator.quiz_prompt topic num_questions difficulty))) = some (Json.obj fields) →
      fields.lookup "questions" = some (Json.arr qs) → qs ≠ [] →
      AIGenerator.generate_quiz jsonParse api_available apiReply topic num_questions difficulty =
        .ok (Json.obj fields)) ∧
    ((AIGenerator.quiz_placeholder topic).getKey "questions" =
      some (Json.arr [AIGenerator.quiz_placeholder_question topic])) ∧
    (jsonParse (AIGenerator.call_ai api_available apiReply
        (AIGenerator.flashcards_prompt topic num_cards)) = none →
      AIGenerator.generate_flashcards jsonParse api_available apiReply topic num_cards =
        AIGenerator.flashcards_placeholder topic) ∧
    (jsonParse (AIGenerator.call_ai api_available apiReply
        (AIGenerator.flashcards_prompt topic num_cards)) = some j →
      AIGenerator.generate_flashcards jsonParse api_available apiReply topic num_cards = j) := by
  refine ⟨?_, ?_, ?_, ?_, ?_, rfl, ?_, ?_⟩
  · intro h
    simp only [AIGenerator.generate_quiz, h]
  · intro h hobj
    cases j with
    | obj fs => simp [Json.isObj] at hobj
    | null => simp only [AIGenerator.generate_quiz, h]
    | bool b => simp only [AIGenerator.generate_quiz, h]
    | num n => simp only [AIGenerator.generate_quiz, h]
    | str s => simp only [AIGenerator.generate_quiz, h]
    | arr xs => simp only [AIGenerator.generate_quiz, h]
  · intro h hq
    simp only [AIGenerator.generate_quiz, h, hq]
  · intro h hq ht
    simp only [AIGenerator.generate_quiz, h, hq, ht]
    rfl
  · intro h hq hne
    simp only [AIGenerator.generate_quiz, h, hq, Json.truthy, Json.pyLen,
      List.isEmpty_eq_true]
    have : ¬ qs.isEmpty = true := by simpa [List.isEmpty_eq_true] using hne
    simp [this, List.length_eq_zero, hne]
  · intro h
    simp only [AIGenerator.generate_flashcards, h]
  · intro h
    simp only [AIGenerator.generate_flashcards, h]

/-- C5 counterexample: the AI reply `\x7b"x": 1\x7d` is valid JSON with the
`cards` key missing; `generate_flashcards` returns the parsed object
unchanged, which carries no `cards` entry at all, instead of the single-item
placeholder the claim requires. -/
theorem C5_counterexample_flashcards_missing_cards :
    (AIGenerator.generate_flashcards
        (fun s => if s = "\x7b\"x\": 1\x7d" then some (Json.obj [("x", Json.num 1)]) else none)
        true (fun _ => some "\x7b\"x\": 1\x7d") "Math" 20).getKey "cards" = none ∧
    (AIGenerator.flashcards_placeholder "Math").getKey "cards" ≠ none := by
  exact ⟨rfl, fun h => Option.noConfusion h⟩

/-- Witness for C5 at concrete inputs: a parse that always fails makes both
functions return their placeholders. -/
theorem C5_parse_failure_fallbacks_witness :
    AIGenerator.generate_quiz (fun _ => none) true (fun _ => some "not json")
      "Math" 5 "easy" = .ok (AIGenerator.quiz_placeholder "Math") ∧
    AIGenerator.generate_flashcards (fun _ => none) true (fun _ => some "not json")
      "Math" 20 = AIGenerator.flashcards_placeholder "Math" := by
  have h := C5_parse_failure_fallbacks (fun _ => none) true (fun _ => some "not json")
    "Math" "easy" 5 20 [] Json.null Json.null []
  exact ⟨h.1 rfl, h.2.2.2.2.2.2.1 rfl⟩

namespace QuizFetcher

/-- The static placeholder question returned by `QuizFetcher.fetch_quiz` when
neither the external API nor an AI generator is available (quiz_fetcher.py
lines 190 to 199). -/
def static_placeholder_question (topic : String) : Json :=
  Json.obj [
    ("question", Json.str ("Sample question about " ++ topic ++ "?")),
    ("options", Json.arr [Json.str "Option A", Json.str "Option B",
      Json.str "Option C", Json.str "Option D"]),
    ("correct", Json.num 0),
    ("explanation", Json.str "This is a placeholder question. Please configure internet quiz sources or AI generator.")]

/-- The `questions` list of a quiz dictionary.  The claims only concern
array-shaped `questions` values; a non-array value (possible only through a
degenerate AI reply) is projected to the empty list. -/
def quiz_questions (j : Json) : List Json :=
  match j.getKey "questions" with
  | some (Json.arr qs) => qs
  | _ => []

/-- Embedding of `QuizFetcher.fetch_quiz` (quiz_fetcher.py lines 152 to 199).
`external` is the outcome of `fetch_from_opentdb`: `none` when that call
returned `None` (network failure, error response code or empty result set),
otherwise the formatted question list.  `ai_configured` is whether
`self.ai_generator` is set.  The function returns the `questions` list of the
returned dictionary; an uncaught exception from `generate_quiz` propagates as
`Except.error`.  The external branch appends `ai_quiz[questions][:remaining]`
only when `ai_quiz` and its `questions` entry are truthy, as in the source. -/
def fetch_quiz (jsonParse : String → Option Json) (ai_configured api_available : Bool)
    (apiReply : String → Option String) (external : Option (List Json))
    (topic : String) (num_questions : Nat) (difficulty : String) :
    Except String (List Json) :=
  let fallback : Except String (List Json) :=
    if ai_configured then
      (AIGenerator.generate_quiz jsonParse api_available apiReply topic
        num_questions difficulty).map quiz_questions
    else .ok [static_placeholder_question topic]
  match external with
  | none => fallback
  | some qs =>
    if qs.length ≥ num_questions then .ok (qs.take num_questions)
    else if qs.length > 0 then
      let remaining := num_questions - qs.length
      if ai_configured ∧ remaining > 0 then
        match AIGenerator.generate_quiz jsonParse api_available apiReply topic
            remaining difficulty with
        | .error e => .error e
        | .ok ai_quiz =>
          if ai_quiz.truthy && (ai_quiz.getKey "questions").elim false Json.truthy then
            .ok (qs ++ (quiz_questions ai_quiz).take remaining)
          else .ok qs
      else .ok qs
    else fallback

end QuizFetcher

/-- C1 (amended): for 1 ≤ N, `fetch_quiz` follows the stated policy and the
returned list has length at most N in the truncation branch, the top-up
branch and the no-generator branch; in the full-delegation branch (zero
external results, generator configured) the result is exactly the question
list of `generate_quiz`, which the code does not truncate to N. -/
theorem C1_fetch_quiz_policy (jsonParse : String → Option Json)
    (ai_configured api_available : Bool) (apiReply : String → Option String)
    (qs : List Json) (topic difficulty : String) (n : Nat) (hn : 1 ≤ n) :
    (n ≤ qs.length →
      QuizFetcher.fetch_quiz jsonParse ai_configured api_available apiReply
          (some qs) topic n difficulty = .ok (qs.take n) ∧
        (qs.take n).length ≤ n) ∧
    (0 < qs.length → qs.length < n →
      Option.all (fun k => decide (k ≤ n))
        ((QuizFetcher.fetch_quiz jsonParse ai_configured api_available apiReply
          (some qs) topic n difficulty).toOption.map List.length) = true) ∧
    (ai_configured = true →
      QuizFetcher.fetch_quiz jsonParse ai_configured api_available apiReply
          none topic n difficulty =
        (AIGenerator.generate_quiz jsonParse api_available apiReply topic n
          difficulty).map QuizFetcher.quiz_questions) ∧
    (ai_configured = false →
      QuizFetcher.fetch_quiz jsonParse ai_configured api_available apiReply
          none topic n difficulty =
        .ok [QuizFetcher.static_placeholder_question topic] ∧
      [QuizFetcher.static_placeholder_question topic].length ≤ n) := by
  refine ⟨?_, ?_, ?_, ?_⟩
  · intro h
    refine ⟨?_, ?_⟩
    · simp [QuizFetcher.fetch_quiz, h]
    · simp [List.length_take]
  · intro h0 hlt
    have hge : ¬ qs.length ≥ n := Nat.not_le.mpr hlt
    simp only [QuizFetcher.fetch_quiz, if_neg hge, if_pos h0]
    split
    · split
      · rfl
      · split
        · simp only [Except.toOption, Option.map, Option.all,
            decide_eq_true_eq, List.length_append, List.length_take]
          omega
        · simp only [Except.toOption, Option.map, Option.all,
            decide_eq_true_eq]
          omega
    · simp only [Except.toOption, Option.map, Option.all, decide_eq_true_eq]
      omega
  · intro h
    subst h
    rfl
  · intro h
    subst h
    exact ⟨rfl, by simpa using hn⟩

/-- Reply used by the C1 counterexample: valid JSON holding two questions. -/
def cexC1_reply : String := "\x7b\"questions\": [null, null]\x7d"

/-- Model of `json.loads` on the C1 counterexample reply, mirroring what
Python returns on that exact string. -/
def cexC1_parse : String → Option Json := fun s =>
  if s = cexC1_reply then
    some (Json.obj [("questions", Json.arr [Json.null, Json.null])])
  else none

/-- C1 counterexample: with zero external results and a generator whose reply
parses to two questions, `fetch_quiz` with N = 1 returns two questions, so
the returned list is longer than N. -/
theorem C1_counterexample_delegation_exceeds_n :
    (QuizFetcher.fetch_quiz cexC1_parse true true (fun _ => some cexC1_reply)
        none "Math" 1 "medium").toOption.map List.length = some 2 ∧
    ¬ (2 ≤ 1) := by
  exact ⟨rfl, by decide⟩

/-- Witness for C1 at a concrete input: three external questions, N = 2, the
list is truncated to two questions. -/
theorem C1_fetch_quiz_policy_witness :
    1 ≤ 2 ∧ 2 ≤ ([Json.null, Json.null, Json.null] : List Json).length ∧
    QuizFetcher.fetch_quiz (fun _ => none) true true (fun _ => some "x")
        (some [Json.null, Json.null, Json.null]) "Math" 2 "medium" =
      .ok [Json.null, Json.null] := by
  have h := C1_fetch_quiz_policy (fun _ => none) true true (fun _ => some "x")
    [Json.null, Json.null, Json.null] "Math" "medium" 2 (by decide)
  exact ⟨by decide, by decide, (h.1 (by decide)).1⟩

namespace StudyMaterialFetcher

/-- One fetched source as assembled by `fetch_from_wikipedia`
(study_material_fetcher.py lines 42 to 86): title, cleaned extract, page url
and the fixed origin label "Wikipedia".  The unused `description` field is
omitted.  An empty `url` models a missing url (the code tests its Python
truthiness). -/
structure WikiSource where
  title : String
  extract : String
  url : String
  source : String
deriving Repr, DecidableEq

/-- The three reformulated queries tried by `fetch_educational_content`
(study_material_fetcher.py lines 122 to 126), in order. -/
def alternative_queries (topic : String) : List String :=
  [topic ++ " explanation", topic ++ " definition", "what is " ++ topic]

/-- The alternative-query loop of `fetch_educational_content`
(study_material_fetcher.py lines 128 to 132): the first response whose
extract is longer than 100 characters is kept and the loop breaks; shorter or
missing responses are skipped. -/
def first_good_alternative (fetchWiki : String → Option WikiSource) :
    List String → Option WikiSource
  | [] => none
  | q :: rest =>
    match fetchWiki q with
    | some alt =>
      if alt.extract.length > 100 then some alt
      else first_good_alternative fetchWiki rest
    | none => first_good_alternative fetchWiki rest

/-- Embedding of `StudyMaterialFetcher.fetch_educational_content`
(study_material_fetcher.py lines 107 to 138), returning the `sources` list of
the built dictionary.  `fetchWiki` models `fetch_from_wikipedia`, `none`
standing for a `None` return.  The source first collects the primary result,
then appends the first good alternative when the primary is missing or its
extract is under 100 characters; the two outcomes of the primary fetch are
expanded here. -/
def fetch_educational_content (fetchWiki : String → Option WikiSource)
    (topic : String) : List WikiSource :=
  match fetchWiki topic with
  | some w =>
    if w.extract.length < 100 then
      match first_good_alternative fetchWiki (alternative_queries topic) with
      | some alt => [w, alt]
      | none => [w]
    else [w]
  | none =>
    match first_good_alternative fetchWiki (alternative_queries topic) with
    | some alt => [alt]
    | none => []

/-- The `sources_text` accumulation of `compile_study_material`
(study_material_fetcher.py lines 152 to 157). -/
def sources_text (sources : List WikiSource) : String :=
  sources.foldl (fun acc s =>
    acc ++ "\n\nSource: " ++ s.title ++ " (" ++ s.source ++ ")\n" ++
    s.extract ++ "\n" ++
    (if s.url ≠ "" then "Reference: " ++ s.url ++ "\n" else "")) ""

/-- The notes synthesis prompt of `compile_study_material`
(study_material_fetcher.py lines 161 to 174). -/
def notes_sources_prompt (topic difficulty st : String) : String :=
  pyJoin "\n" [
    "Based on the following information from internet sources about \x27" ++ topic ++ "\x27, ",
    "create comprehensive study notes suitable for " ++ difficulty ++ " level students.",
    "",
    "Internet Sources Information:",
    st,
    "",
    "Please create well-organized study notes that:",
    "1. Synthesize information from the sources above",
    "2. Include key concepts, definitions, and important points",
    "3. Organize content in a clear, structured format",
    "4. Add examples and explanations where helpful",
    "5. Maintain accuracy based on the source material",
    "",
    "Format the notes with clear headings and sections."]

/-- The summary synthesis prompt of `compile_study_material`
(study_material_fetcher.py lines 177 to 186). -/
def summary_sources_prompt (topic difficulty st : String) : String :=
  pyJoin "\n" [
    "Based on the following information from internet sources about \x27" ++ topic ++ "\x27, ",
    "create a concise summary suitable for " ++ difficulty ++ " level.",
    "",
    "Internet Sources Information:",
    st,
    "",
    "Please create a summary that:",
    "1. Captures the main points from the sources",
    "2. Is clear and easy to understand",
    "3. Includes key takeaways"]

/-- The synthesis prompt for other content types (study_material_fetcher.py
lines 190 to 195). -/
def other_sources_prompt (content_type topic difficulty st : String) : String :=
  pyJoin "\n" [
    "Create " ++ content_type ++ " on \x27" ++ topic ++ "\x27 for " ++ difficulty ++ " level students.",
    "",
    "Additional information from internet sources:",
    st,
    "",
    "Use this information to create accurate and comprehensive content."]

/-- The three possible result shapes of `compile_study_material`: the
internet-sourced dictionary (lines 216 to 242, which carries
`generated_from_internet: True`), the plain `AIGenerator.generate`
dictionary of the fallback (lines 245 to 252, which carries no
`generated_from_internet` key at all), and the last-resort static dictionary
(lines 255 to 261, which carries `generated_from_internet: False`). -/
inductive StudyMaterialResult where
  | fromInternet (type topic content difficulty : String)
      (sources : List String) : StudyMaterialResult
  | aiOnly (result : List (String × String)) : StudyMaterialResult
  | basic (type topic content difficulty : String) : StudyMaterialResult
deriving Repr, DecidableEq

/-- The value of the `generated_from_internet` key of the returned
dictionary: `none` when the key is absent (AI-only fallback path). -/
def StudyMaterialResult.generated_from_internet : StudyMaterialResult → Option Bool
  | .fromInternet .. => some true
  | .aiOnly _ => none
  | .basic .. => some false

/-- Embedding of `StudyMaterialFetcher.compile_study_material`
(study_material_fetcher.py lines 140 to 261).  The `hasattr` test on
`_call_ai` is true for the real `AIGenerator`, so the `_call_ai` path is the
one embedded. -/
def compile_study_material (fetchWiki : String → Option WikiSource)
    (ai_configured api_available : Bool) (apiReply : String → Option String)
    (topic content_type difficulty language : String) : StudyMaterialResult :=
  let sources := fetch_educational_content fetchWiki topic
  if sources ≠ [] ∧ ai_configured then
    let st := sources_text sources
    let prompt0 :=
      if content_type = "notes" then notes_sources_prompt topic difficulty st
      else if content_type = "summary" then summary_sources_prompt topic difficulty st
      else other_sources_prompt content_type topic difficulty st
    let prompt :=
      if language ≠ "en" then
        prompt0 ++ "\n\nTranslate the content to " ++ language ++ "."
      else prompt0
    let ai_result := AIGenerator.call_ai api_available apiReply prompt
    .fromInternet
      (if content_type = "notes" then "notes"
       else if content_type = "summary" then "summary" else content_type)
      topic ai_result difficulty
      ((sources.filter (fun s => s.url ≠ "")).map (fun s => s.url))
  else if ai_configured then
    .aiOnly (AIGenerator.generate api_available apiReply topic content_type
      difficulty language)
  else
    .basic content_type topic
      ("Study material about " ++ topic ++ " (internet sources unavailable)")
      difficulty

end StudyMaterialFetcher

/-- C3 (amended): the `generated_from_internet` flag is `False` exactly when
no AI generator is configured (the last-resort path); with a generator it is
`True` exactly when the compiled source list is nonempty — and that list is
empty only when the primary fetch returned nothing at all and no alternative
query produced an extract longer than 100 characters.  A nonempty primary
extract shorter than 100 characters therefore still yields a `True` flag,
and the AI-only fallback omits the key entirely rather than setting it to
`False`. -/
theorem C3_generated_from_internet_flag (fetchWiki : String → Option StudyMaterialFetcher.WikiSource)
    (ai_configured api_available : Bool) (apiReply : String → Option String)
    (topic content_type difficulty language : String) :
    ((StudyMaterialFetcher.compile_study_material fetchWiki ai_configured
        api_available apiReply topic content_type difficulty
        language).generated_from_internet = some false ↔ ai_configured = false) ∧
    (ai_configured = true →
      ((StudyMaterialFetcher.compile_study_material fetchWiki ai_configured
          api_available apiReply topic content_type difficulty
          language).generated_from_internet = some true ↔
        StudyMaterialFetcher.fetch_educational_content fetchWiki topic ≠ [])) ∧
    (StudyMaterialFetcher.fetch_educational_content fetchWiki topic = [] ↔
      (fetchWiki topic = none ∧
        StudyMaterialFetcher.first_good_alternative fetchWiki
          (StudyMaterialFetcher.alternative_queries topic) = none)) := by
  refine ⟨?_, ?_, ?_⟩
  · by_cases hs : StudyMaterialFetcher.fetch_educational_content fetchWiki topic = []
    · by_cases hai : ai_configured
      · simp [StudyMaterialFetcher.compile_study_material, hs, hai,
          StudyMaterialFetcher.StudyMaterialResult.generated_from_internet]
      · simp [StudyMaterialFetcher.compile_study_material, hs, hai,
          StudyMaterialFetcher.StudyMaterialResult.generated_from_internet]
    · by_cases hai : ai_configured
      · simp [StudyMaterialFetcher.compile_study_material, hs, hai,
          StudyMaterialFetcher.StudyMaterialResult.generated_from_internet]
      · simp [StudyMaterialFetcher.compile_study_material, hs, hai,
          StudyMaterialFetcher.StudyMaterialResult.generated_from_internet]
  · intro hai
    subst hai
    by_cases hs : StudyMaterialFetcher.fetch_educational_content fetchWiki topic = []
    · simp [StudyMaterialFetcher.compile_study_material, hs,
        StudyMaterialFetcher.StudyMaterialResult.generated_from_internet]
    · simp [StudyMaterialFetcher.compile_study_material, hs,
        StudyMaterialFetcher.StudyMaterialResult.generated_from_internet]
  · cases hw : fetchWiki topic with
    | none =>
      cases halt : StudyMaterialFetcher.first_good_alternative fetchWiki
          (StudyMaterialFetcher.alternative_queries topic) with
      | none => simp [StudyMaterialFetcher.fetch_educational_content, hw, halt]
      | some alt => simp [StudyMaterialFetcher.fetch_educational_content, hw, halt]
    | some w =>
      simp only [StudyMaterialFetcher.fetch_educational_content, hw]
      split
      · cases halt : StudyMaterialFetcher.first_good_alternative fetchWiki
            (StudyMaterialFetcher.alternative_queries topic) with
        | none => simp
        | some alt => simp
      · simp

/-- Fetch outcome used by the C3 counterexample: the primary query returns a
17-character extract, every other query fails. -/
def cexC3_fetch : String → Option StudyMaterialFetcher.WikiSource := fun q =>
  if q = "mitochondria" then
    some ⟨"Mitochondrion", "A tiny cell part.", "", "Wikipedia"⟩
  else none

/-- C3 counterexample: no fetched source reaches 100 characters (the primary
extract has 17 characters and all three alternative queries return nothing),
yet with a configured generator the flag comes back `True`, because the short
primary source already makes the source list nonempty. -/
theorem C3_counterexample_short_primary_extract :
    (cexC3_fetch "mitochondria").elim 0 (fun w => w.extract.length) < 100 ∧
    cexC3_fetch ("mitochondria" ++ " explanation") = none ∧
    cexC3_fetch ("mitochondria" ++ " definition") = none ∧
    cexC3_fetch ("what is " ++ "mitochondria") = none ∧
    (StudyMaterialFetcher.compile_study_material cexC3_fetch true false
        (fun _ => none) "mitochondria" "notes" "medium"
        "en").generated_from_internet = some true := by
  exact ⟨by decide, rfl, rfl, rfl, rfl⟩

/-- Witness for C3 at a concrete input: no generator configured, the flag of
the last-resort dictionary is `False`. -/
theorem C3_generated_from_internet_flag_witness :
    (StudyMaterialFetcher.compile_study_material (fun _ => none) false false
        (fun _ => none) "t" "notes" "medium"
        "en").generated_from_internet = some false :=
  (C3_generated_from_internet_flag (fun _ => none) false false (fun _ => none)
    "t" "notes" "medium" "en").1.mpr rfl

namespace ProgressTracker

/-- One row of the `Progress` table as created by
`ProgressTracker.update_progress` (progress_tracker.py lines 30 to 36).
Scores are modeled as rationals (Python numbers).  The `id` and
`completed_at` columns are filled by the database and are not part of the
insert, so they are omitted. -/
structure ProgressRow where
  user_id : Nat
  topic : String
  difficulty_level : String
  score : ℚ
  data : String
deriving Repr, DecidableEq

/-- Embedding of `ProgressTracker.update_progress` (progress_tracker.py lines
17 to 39).  The database session is the row list `db`; `session.add` plus
`commit` of a fresh model object appends exactly one row.  `now` abstracts
`datetime.utcnow().isoformat()`. -/
def update_progress (db : List ProgressRow) (topic : String) (score : ℚ)
    (difficulty : String) (user_id : Nat) (now : String) : List ProgressRow :=
  db ++ [{ user_id := user_id, topic := topic, difficulty_level := difficulty,
           score := score,
           data := "\x7b\"last_updated\": \"" ++ now ++ "\"\x7d" }]

/-- Embedding of `ProgressTracker.get_adaptive_difficulty`
(progress_tracker.py lines 62 to 92).  `history` is the user's score history
for the topic ordered most recent first (the query orders by `completed_at`
descending); `limit(5)` is `List.take 5`.  The Python float average of
integer-like scores is modeled exactly by rational division. -/
def get_adaptive_difficulty (history : List ℚ) : String :=
  let recent := history.take 5
  if recent.isEmpty then "medium"
  else
    let avg := recent.sum / (recent.length : ℚ)
    if avg ≥ 80 then "hard"
    else if avg ≥ 60 then "medium"
    else "easy"

end ProgressTracker

/-- C6: `get_adaptive_difficulty` depends only on the most recent five
scores of the topic; it returns "medium" on an empty history, "hard" when
their average reaches 80, "medium" when it reaches 60 but not 80, "easy"
below 60; and on the concrete histories of the claim it returns "hard" for
[90, 85, 95], "easy" for [50, 40] and "medium" for no history. -/
theorem C6_adaptive_difficulty (history : List ℚ) :
    (ProgressTracker.get_adaptive_difficulty history =
      ProgressTracker.get_adaptive_difficulty (history.take 5)) ∧
    (history = [] → ProgressTracker.get_adaptive_difficulty history = "medium") ∧
    (history ≠ [] → (history.take 5).sum / ((history.take 5).length : ℚ) ≥ 80 →
      ProgressTracker.get_adaptive_difficulty history = "hard") ∧
    (history ≠ [] → (history.take 5).sum / ((history.take 5).length : ℚ) < 80 →
      (history.take 5).sum / ((history.take 5).length : ℚ) ≥ 60 →
      ProgressTracker.get_adaptive_difficulty history = "medium") ∧
    (history ≠ [] → (history.take 5).sum / ((history.take 5).length : ℚ) < 60 →
      ProgressTracker.get_adaptive_difficulty history = "easy") ∧
    ProgressTracker.get_adaptive_difficulty [90, 85, 95] = "hard" ∧
    ProgressTracker.get_adaptive_difficulty [50, 40] = "easy" ∧
    ProgressTracker.get_adaptive_difficulty [] = "medium" := by
  have hne : ∀ h : List ℚ, h ≠ [] → (h.take 5).isEmpty = false := by
    intro h hh
    cases h with
    | nil => exact absurd rfl hh
    | cons a t => simp
  refine ⟨?_, ?_, ?_, ?_, ?_, ?_, ?_, rfl⟩
  · simp [ProgressTracker.get_adaptive_difficulty, List.take_take]
  · intro h; subst h; rfl
  · intro h1 h2
    simp only [ProgressTracker.get_adaptive_difficulty, hne history h1,
      Bool.false_eq_true, if_false, if_pos h2]
  · intro h1 h2 h3
    simp only [ProgressTracker.get_adaptive_difficulty, hne history h1,
      Bool.false_eq_true, if_false, if_neg (not_le.mpr h2), if_pos h3]
  · intro h1 h2
    have h3 : ¬ (history.take 5).sum / ((history.take 5).length : ℚ) ≥ 80 :=
      not_le.mpr (lt_of_lt_of_le h2 (by norm_num))
    simp only [ProgressTracker.get_adaptive_difficulty, hne history h1,
      Bool.false_eq_true, if_false, if_neg h3, if_neg (not_le.mpr h2)]
  · norm_num [ProgressTracker.get_adaptive_difficulty]
  · norm_num [ProgressTracker.get_adaptive_difficulty]

/-- Witness for C6 at a concrete input: the history [90, 85, 95] is nonempty,
its average is at least 80, and the returned difficulty is "hard". -/
theorem C6_adaptive_difficulty_witness :
    ([90, 85, 95] : List ℚ) ≠ [] ∧
    (([90, 85, 95] : List ℚ).take 5).sum /
      ((([90, 85, 95] : List ℚ).take 5).length : ℚ) ≥ 80 ∧
    ProgressTracker.get_adaptive_difficulty [90, 85, 95] = "hard" := by
  refine ⟨by simp, by norm_num, ?_⟩
  exact (C6_adaptive_difficulty [90, 85, 95]).2.2.1 (by simp) (by norm_num)

/-- C9: every call to `ProgressTracker.update_progress` appends exactly one
new `Progress` row: the length grows by one, every existing row is unchanged
in place, and the single appended row is the freshly built one. -/
theorem C9_update_progress_appends_one_row (db : List ProgressTracker.ProgressRow)
    (topic : String) (score : ℚ) (difficulty : String) (user_id : Nat)
    (now : String) :
    (ProgressTracker.update_progress db topic score difficulty user_id now).length =
      db.length + 1 ∧
    (ProgressTracker.update_progress db topic score difficulty user_id now).take
      db.length = db ∧
    (ProgressTracker.update_progress db topic score difficulty user_id now).drop
      db.length =
      [{ user_id := user_id, topic := topic, difficulty_level := difficulty,
         score := score,
         data := "\x7b\"last_updated\": \"" ++ now ++ "\"\x7d" }] := by
  refine ⟨by simp [ProgressTracker.update_progress], ?_, ?_⟩
  · exact List.take_left db _
  · exact List.drop_left db _

namespace ExportManager

/-- The fields of a generated-content dictionary that
`ExportManager._export_pdf`, `_export_ppt` and `_export_docx` read
(export_manager.py).  Absent keys are `none`; `str_repr` is Python
`str(content)`, the default when every looked-up key is absent.  The claims
quantify over dictionaries, so the non-dict branch of the code is not
modeled. -/
structure ContentDict where
  topic : Option String
  content : Option String
  script : Option String
  description : Option String
  str_repr : String
deriving Repr, DecidableEq

/-- The rendered document: its title and its sequence of body paragraphs
(for PPT, the text of the content slides after the title slide). -/
structure ExportDoc where
  title : String
  paragraphs : List String
deriving Repr, DecidableEq

/-- The shared paragraph splitting of the three exporters: split the body on
blank lines, strip each piece, keep the nonempty ones. -/
def split_paragraphs (t : String) : List String :=
  ((pySplit t "\n\n").map pyStrip).filter (fun p => p ≠ "")

/-- The HTML-tag cleanup applied only by `_export_pdf` (export_manager.py
lines 59 to 60). -/
def pdf_clean (t : String) : String :=
  pyReplace (pyReplace (pyReplace t "<p>" "") "</p>" "\n") "<br>" "\n"

/-- Embedding of `ExportManager._export_pdf` (export_manager.py lines 40 to
74): body text is the first present of `content`, `script`, `description`,
else `str(content)`. -/
def export_pdf (c : ContentDict) : ExportDoc :=
  { title := c.topic.getD "Educational Content"
    paragraphs := split_paragraphs (pdf_clean
      (c.content.getD (c.script.getD (c.description.getD c.str_repr)))) }

/-- Embedding of `ExportManager._export_ppt` (export_manager.py lines 76 to
117): body text is the first present of `content`, `script`, else
`str(content)` — the `description` field is not consulted. -/
def export_ppt (c : ContentDict) : ExportDoc :=
  { title := c.topic.getD "Educational Content"
    paragraphs := split_paragraphs (c.content.getD (c.script.getD c.str_repr)) }

/-- Embedding of `ExportManager._export_docx` (export_manager.py lines 119 to
146): same field selection as `_export_ppt`, without `description`. -/
def export_docx (c : ContentDict) : ExportDoc :=
  { title := c.topic.getD "Educational Content"
    paragraphs := split_paragraphs (c.content.getD (c.script.getD c.str_repr)) }

/-- Embedding of `ExportManager.export` (export_manager.py lines 26 to 38);
named `export_file` because `export` is a Lean keyword.  The written file is
modeled by the rendered document; an unsupported format raises `ValueError`,
modeled as `Except.error`, and renders nothing. -/
def export_file (c : ContentDict) (format_type : String) : Except String ExportDoc :=
  if format_type = "pdf" then .ok (export_pdf c)
  else if format_type = "ppt" then .ok (export_ppt c)
  else if format_type = "docx" then .ok (export_docx c)
  else .error ("Unsupported format: " ++ format_type)

/-- Modelled from the spec for the refinement comparison of claim C7: the
body-text selector stated by the spec, "first present of
content/script/description fields", with `str(content)` as final default. -/
def spec_body_text (c : ContentDict) : String :=
  c.content.getD (c.script.getD (c.description.getD c.str_repr))

end ExportManager

/-- C7 (amended): all three exporters title the document with the `topic`
field (default "Educational Content") and split the body on blank lines into
stripped nonempty paragraphs or slides; the PDF exporter selects the body as
the spec says (first present of `content`, `script`, `description`, after
HTML-tag cleanup), while the PPT and DOCX exporters consult only `content`
and `script` and fall back to the string form of the whole dictionary when
both are absent, ignoring `description`. -/
theorem C7_export_body_selection (c : ExportManager.ContentDict) (b : String) :
    ((ExportManager.export_pdf c).title = c.topic.getD "Educational Content" ∧
     (ExportManager.export_ppt c).title = c.topic.getD "Educational Content" ∧
     (ExportManager.export_docx c).title = c.topic.getD "Educational Content") ∧
    ((ExportManager.export_pdf c).paragraphs =
      ExportManager.split_paragraphs
        (ExportManager.pdf_clean (ExportManager.spec_body_text c))) ∧
    (c.content = some b ∨ (c.content = none ∧ c.script = some b) →
      (ExportManager.export_ppt c).paragraphs = ExportManager.split_paragraphs b ∧
      (ExportManager.export_docx c).paragraphs = ExportManager.split_paragraphs b) ∧
    (c.content = none → c.script = none →
      (ExportManager.export_ppt c).paragraphs =
        ExportManager.split_paragraphs c.str_repr ∧
      (ExportManager.export_docx c).paragraphs =
        ExportManager.split_paragraphs c.str_repr) := by
  refine ⟨⟨rfl, rfl, rfl⟩, rfl, ?_, ?_⟩
  · rintro (hc | ⟨hc, hs⟩)
    · simp [ExportManager.export_ppt, ExportManager.export_docx, hc]
    · simp [ExportManager.export_ppt, ExportManager.export_docx, hc, hs]
  · intro hc hs
    simp [ExportManager.export_ppt, ExportManager.export_docx, hc, hs]

/-- C7 counterexample: a dictionary whose only body field is `description`
(the shape produced for diagram content).  The PPT exporter renders the
string form of the whole dictionary, not the `description` text the claim
requires; the spec selector yields the `description` text. -/
theorem C7_counterexample_ppt_ignores_description :
    (ExportManager.export_ppt ⟨some "T", none, none, some "D", "S"⟩).paragraphs
      = ["S"] ∧
    ExportManager.split_paragraphs
      (ExportManager.spec_body_text ⟨some "T", none, none, some "D", "S"⟩) = ["D"] ∧
    (["S"] : List String) ≠ ["D"] := by
  exact ⟨rfl, rfl, by decide⟩

/-- Witness for C7 at a concrete input: a dictionary with a two-paragraph
`content` field is rendered to those two paragraphs by PPT and DOCX. -/
theorem C7_export_body_selection_witness :
    (ExportManager.export_ppt ⟨some "T", some "A\n\nB", none, none, "S"⟩).paragraphs
      = ["A", "B"] ∧
    (ExportManager.export_docx ⟨some "T", some "A\n\nB", none, none, "S"⟩).paragraphs
      = ["A", "B"] := by
  have h := (C7_export_body_selection ⟨some "T", some "A\n\nB", none, none, "S"⟩
    "A\n\nB").2.2.1 (Or.inl rfl)
  exact ⟨h.1, h.2⟩

/-- C8: `ExportManager.export` raises an invalid-argument error and renders
nothing for every format outside pdf, ppt, docx, and succeeds on format
selection for every format inside the set. -/
theorem C8_export_format_validation (c : ExportManager.ContentDict)
    (format_type : String) :
    (format_type ≠ "pdf" → format_type ≠ "ppt" → format_type ≠ "docx" →
      ExportManager.export_file c format_type =
        .error ("Unsupported format: " ++ format_type)) ∧
    (format_type = "pdf" ∨ format_type = "ppt" ∨ format_type = "docx" →
      (ExportManager.export_file c format_type).isOk = true) := by
  constructor
  · intro h1 h2 h3
    simp [ExportManager.export_file, h1, h2, h3]
  · rintro (rfl | rfl | rfl) <;> rfl

/-- Witness for C8 at concrete inputs: "xml" is rejected with the
invalid-format error, "pdf" is accepted. -/
theorem C8_export_format_validation_witness :
    ExportManager.export_file ⟨none, none, none, none, "S"⟩ "xml" =
      .error ("Unsupported format: " ++ "xml") ∧
    (ExportManager.export_file ⟨none, none, none, none, "S"⟩ "pdf").isOk = true := by
  have h := C8_export_format_validation ⟨none, none, none, none, "S"⟩ "xml"
  have h2 := C8_export_format_validation ⟨none, none, none, none, "S"⟩ "pdf"
  exact ⟨h.1 (by decide) (by decide) (by decide), h2.2 (Or.inl rfl)⟩

namespace App

/-- The accepted account roles of the `register` route (app.py line 176). -/
def valid_roles : List String := ["student", "teacher", "admin"]

/-- Embedding of the role resolution in the `register` route (app.py lines
173 to 181): the requested role (form default "student") is stripped and
lower-cased, unrecognized values fall back to "student", and an "admin"
request is downgraded to "student" unless the requesting session holds the
"admin" role.  `session_role` is `session.get("role")`, `none` when absent. -/
def resolve_role (requested : Option String) (session_role : Option String) : String :=
  let role0 := pyLower (pyStrip (requested.getD "student"))
  let role1 := if role0 ∈ valid_roles then role0 else "student"
  if role1 = "admin" ∧ session_role ≠ some "admin" then "student" else role1

/-- The fields of a `User` row fixed at registration that the claim touches
(the password hash and database id are irrelevant here). -/
structure RegUser where
  username : String
  email : String
  role : String
deriving Repr, DecidableEq

/-- Embedding of the POST branch of the `register` route (app.py lines 165
to 239): `none` models every 4xx validation response (missing field, short
password, taken username or email) where no account is created; `some`
carries the created account.  A commit failure (rollback, 500) also creates
no account and is subsumed by the `none` outcomes the claim ranges over. -/
def register (username email password : String) (requested_role : Option String)
    (session_role : Option String) (username_taken email_taken : Bool) :
    Option RegUser :=
  let username := pyStrip username
  let email := pyStrip email
  let role := resolve_role requested_role session_role
  if username = "" ∨ email = "" ∨ password = "" then none
  else if password.length < 6 then none
  else if username_taken then none
  else if email_taken then none
  else some { username := username, email := email, role := role }

end App

/-- C10: every account created through the register route has a role among
student, teacher and admin; a requested "admin" role is downgraded to
"student" when the session role is not "admin", and any unrecognized
requested role (after strip and lower-case) also yields "student". -/
theorem C10_register_role_invariant (username email password : String)
    (requested_role session_role : Option String)
    (username_taken email_taken : Bool) (u : App.RegUser)
    (h : App.register username email password requested_role session_role
      username_taken email_taken = some u) :
    u.role ∈ App.valid_roles ∧
    (pyLower (pyStrip (requested_role.getD "student")) = "admin" →
      session_role ≠ some "admin" → u.role = "student") ∧
    (pyLower (pyStrip (requested_role.getD "student")) ∉ App.valid_roles →
      u.role = "student") := by
  have hrole : u.role = App.resolve_role requested_role session_role := by
    simp only [App.register] at h
    split at h
    · exact Option.noConfusion h
    · split at h
      · exact Option.noConfusion h
      · split at h
        · exact Option.noConfusion h
        · split at h
          · exact Option.noConfusion h
          · injection h with h2
            subst h2
            rfl
  refine ⟨?_, ?_, ?_⟩
  · rw [hrole]
    simp only [App.resolve_role]
    by_cases hv : pyLower (pyStrip (requested_role.getD "student")) ∈ App.valid_roles
    · rw [if_pos hv]
      split
      · decide
      · exact hv
    · rw [if_neg hv]
      split
      · decide
      · decide
  · intro ha hs
    rw [hrole]
    simp only [App.resolve_role, ha]
    rw [if_pos (by decide : ("admin" : String) ∈ App.valid_roles)]
    rw [if_pos ⟨rfl, hs⟩]
  · intro hnv
    rw [hrole]
    simp only [App.resolve_role]
    rw [if_neg hnv]
    rw [if_neg (fun hh => absurd hh.1 (by decide))]

/-- Witness for C10 at a concrete input: a logged-out session requests the
"admin" role; the created account is a student. -/
theorem C10_register_role_invariant_witness :
    App.register "bob" "b@x.com" "secret1" (some "admin") none false false =
      some ⟨"bob", "b@x.com", "student"⟩ ∧
    ("student" : String) ∈ App.valid_roles ∧
    (⟨"bob", "b@x.com", "student"⟩ : App.RegUser).role = "student" := by
  have h := C10_register_role_invariant "bob" "b@x.com" "secret1" (some "admin")
    none false false ⟨"bob", "b@x.com", "student"⟩ rfl
  exact ⟨rfl, h.1, h.2.1 rfl (fun hh => Option.noConfusion hh)⟩
